import Mathlib

/-
Shallow embedding of src/src/Tutorial04_Instancing.cpp, a Diligent Engine
instancing tutorial sample. Pure data and per-tick state transitions are
modelled directly; the external rendering engine (device, context, swap
chain) appears only through the values the sample reads from it. Floating
point scalars are modelled as exact real numbers.
-/

noncomputable section

namespace Tutorial04

/-- Transform type of the sample: a 4x4 matrix over the reals. Models the
Diligent float4x4 type (external engine math library, row-major storage,
row-vector convention, as used by the sample via Scale * Translation *
Rotation products). -/
abbrev float4x4 := Matrix (Fin 4) (Fin 4) ℝ

namespace float4x4

/-- Models float4x4.Scale(x, y, z) of the external engine math library. -/
def Scale (x y z : ℝ) : float4x4 :=
  !![x, 0, 0, 0;
     0, y, 0, 0;
     0, 0, z, 0;
     0, 0, 0, 1]

/-- Models float4x4.Translation(x, y, z) of the external engine math library
(row-vector convention: the translation sits in the fourth row). -/
def Translation (x y z : ℝ) : float4x4 :=
  !![1, 0, 0, 0;
     0, 1, 0, 0;
     0, 0, 1, 0;
     x, y, z, 1]

/-- Models float4x4.RotationX(a) of the external engine math library. -/
def RotationX (a : ℝ) : float4x4 :=
  !![1, 0, 0, 0;
     0, Real.cos a, Real.sin a, 0;
     0, -Real.sin a, Real.cos a, 0;
     0, 0, 0, 1]

/-- Models float4x4.RotationY(a) of the external engine math library. -/
def RotationY (a : ℝ) : float4x4 :=
  !![Real.cos a, 0, -Real.sin a, 0;
     0, 1, 0, 0;
     Real.sin a, 0, Real.cos a, 0;
     0, 0, 0, 1]

end float4x4

/-- Models the float constant PI_F as the exact real number pi. -/
def PI_F : ℝ := Real.pi

/-- Element produced by value-initialization of the InstanceData vector
entries (line 157, std vector of float4x4 constructed with a size). The
element type belongs to the external engine math library; the
value-initialized element is modelled as the zero matrix. -/
def default4x4 : float4x4 := 0

/-- Transform written at instId 0 (line 175, code comment Center lv 1). -/
def entry0 (angle : ℝ) : float4x4 :=
  float4x4.Scale 0.7 0.7 0.7 * float4x4.Translation 0 4 0 * float4x4.RotationY angle

/-- Transform written at instId 1 (line 178, code comment Right lv 1). -/
def entry1 (angle : ℝ) : float4x4 :=
  float4x4.Scale 0.6 0.6 0.6 * float4x4.Translation 6 6 0 * float4x4.RotationY angle

/-- Transform written at instId 2 (line 181, code comment Left lv 1). -/
def entry2 (angle : ℝ) : float4x4 :=
  float4x4.Scale 0.6 0.6 0.6 * float4x4.Translation (-6) 6 0 * float4x4.RotationY angle

/-- Transform written at instId 3 (line 184, code comment Front lv 1). -/
def entry3 (angle : ℝ) : float4x4 :=
  float4x4.Scale 0.6 0.6 0.6 * float4x4.Translation 0 6 6 * float4x4.RotationY angle

/-- Transform written at instId 4 (line 187, code comment Back lv 1). -/
def entry4 (angle : ℝ) : float4x4 :=
  float4x4.Scale 0.6 0.6 0.6 * float4x4.Translation 0 6 (-6) * float4x4.RotationY angle

/-- Transform written at instId 5 (line 190, code comment Right lv 2). -/
def entry5 (angle : ℝ) : float4x4 :=
  float4x4.Scale 0.5 0.5 0.5 * float4x4.Translation 6 3 0 * float4x4.RotationY angle

/-- Transform written at instId 6 (line 193, code comment Left lv 2). -/
def entry6 (angle : ℝ) : float4x4 :=
  float4x4.Scale 0.5 0.5 0.5 * float4x4.Translation (-6) 3 0 * float4x4.RotationY angle

/-- Transform written at instId 7 (line 196, code comment Front lv 2). -/
def entry7 (angle : ℝ) : float4x4 :=
  float4x4.Scale 0.5 0.5 0.5 * float4x4.Translation 0 3 6 * float4x4.RotationY angle

/-- Transform written at instId 8 (line 199, code comment Back lv 2). -/
def entry8 (angle : ℝ) : float4x4 :=
  float4x4.Scale 0.5 0.5 0.5 * float4x4.Translation 0 3 (-6) * float4x4.RotationY angle

/-- Transform written at instId 9 (line 202, code comment Right lv 3). -/
def entry9 (angle : ℝ) : float4x4 :=
  float4x4.Scale 0.5 0.5 0.5 * float4x4.Translation 6 0 0 * float4x4.RotationY angle

/-- Transform written at instId 10 (line 205, code comment Left lv 3). -/
def entry10 (angle : ℝ) : float4x4 :=
  float4x4.Scale 0.5 0.5 0.5 * float4x4.Translation (-6) 0 0 * float4x4.RotationY angle

/-- Transform written at instId 11 (line 208, code comment Front lv 3). -/
def entry11 (angle : ℝ) : float4x4 :=
  float4x4.Scale 0.5 0.5 0.5 * float4x4.Translation 0 0 6 * float4x4.RotationY angle

/-- Transform written at instId 12 (line 211, code comment Back lv 3). -/
def entry12 (angle : ℝ) : float4x4 :=
  float4x4.Scale 0.5 0.5 0.5 * float4x4.Translation 0 0 (-6) * float4x4.RotationY angle

/-- Transform written at instId 13 (line 217, first tube). -/
def entry13 (angle : ℝ) : float4x4 :=
  float4x4.Scale 6 0.08 0.08 * float4x4.Translation 0 8 0 * float4x4.RotationY angle

/-- Transform written at instId 14 (line 220, second tube). -/
def entry14 (angle : ℝ) : float4x4 :=
  float4x4.Scale 0.08 0.08 6 * float4x4.Translation 0 8 0 * float4x4.RotationY angle

/-- Transform written at instId 15 (line 225, first hanging rod). -/
def entry15 (angle : ℝ) : float4x4 :=
  float4x4.Scale 0.08 2 0.08 * float4x4.Translation 0 6 0 * float4x4.RotationY angle

/-- Transform written at instId 16 (line 228, second hanging rod). -/
def entry16 (angle : ℝ) : float4x4 :=
  float4x4.Scale 0.08 4 0.08 * float4x4.Translation 6 4 0 * float4x4.RotationY angle

/-- Transform written at instId 17 (line 231, third hanging rod). -/
def entry17 (angle : ℝ) : float4x4 :=
  float4x4.Scale 0.08 4 0.08 * float4x4.Translation 0 4 6 * float4x4.RotationY angle

/-- Transform written at instId 18 (line 234, fourth hanging rod). -/
def entry18 (angle : ℝ) : float4x4 :=
  float4x4.Scale 0.08 4 0.08 * float4x4.Translation (-6) 4 0 * float4x4.RotationY angle

/-- Transform written at instId 19 (line 237, fifth hanging rod). -/
def entry19 (angle : ℝ) : float4x4 :=
  float4x4.Scale 0.08 4 0.08 * float4x4.Translation 0 4 (-6) * float4x4.RotationY angle

/-- The 20 hardcoded transforms of PopulateInstanceBuffer in write order
(instId 0 through 19), as a list parameterized by the rotation angle they
all share. -/
def hardcodedTransforms (angle : ℝ) : List float4x4 :=
  [entry0 angle, entry1 angle, entry2 angle, entry3 angle, entry4 angle,
   entry5 angle, entry6 angle, entry7 angle, entry8 angle, entry9 angle,
   entry10 angle, entry11 angle, entry12 angle, entry13 angle, entry14 angle,
   entry15 angle, entry16 angle, entry17 angle, entry18 angle, entry19 angle]

/-- The InstanceData vector built by PopulateInstanceBuffer (lines 156-238):
a vector of gridSize * gridSize * gridSize value-initialized float4x4
entries, into which the 20 hardcoded transforms are assigned sequentially
at indices instId = 0 .. 19 (all sharing the rotation angle read after the
increment). The random distributions constructed on lines 161-166 are never
sampled and do not appear. -/
def instanceDataVec (gridSize : ℕ) (angle : ℝ) : List float4x4 :=
  ((((((((((((((((((((List.replicate (gridSize * gridSize * gridSize) default4x4).set
    0 (entry0 angle)).set 1 (entry1 angle)).set 2 (entry2 angle)).set
    3 (entry3 angle)).set 4 (entry4 angle)).set 5 (entry5 angle)).set
    6 (entry6 angle)).set 7 (entry7 angle)).set 8 (entry8 angle)).set
    9 (entry9 angle)).set 10 (entry10 angle)).set 11 (entry11 angle)).set
    12 (entry12 angle)).set 13 (entry13 angle)).set 14 (entry14 angle)).set
    15 (entry15 angle)).set 16 (entry16 angle)).set 17 (entry17 angle)).set
    18 (entry18 angle)).set 19 (entry19 angle)

/-- Mutable members of the sample relevant to the modelled behavior,
together with the file-static angle variable (line 151). -/
structure SampleState where
  angle : ℝ
  m_GridSize : ℕ
  m_CameraMode : ℤ
  m_ViewProjMatrix : float4x4
  m_RotationMatrix : float4x4
  instanceBuffer : List float4x4

/-- Models Tutorial04_Instancing.PopulateInstanceBuffer (lines 153-243):
increments the file-static angle by 0.01 (line 173), rebuilds the
InstanceData vector using the incremented angle, and uploads the whole
vector to the GPU instance buffer via UpdateBuffer (line 242). -/
def PopulateInstanceBuffer (s : SampleState) : SampleState :=
  { s with
      angle := s.angle + 0.01,
      instanceBuffer := instanceDataVec s.m_GridSize (s.angle + 0.01) }

/-- Modelled from the spec: MaxInstances is declared in the header
Tutorial04_Instancing.hpp, which is not among the provided sources.
CreateInstanceBuffer sizes the instance buffer as
sizeof(float4x4) * MaxInstances; the spec fixes the grid size at 32 and
states that the capacity invariant holds with the compile-time constant
count, so MaxInstances = 32 * 32 * 32 (the value used by the upstream
tutorial this sample derives from). -/
def MaxInstances : ℕ := 32 * 32 * 32

/-- Models Tutorial04_Instancing.CreateInstanceBuffer (lines 102-113):
reserves sizeof(float4x4) * MaxInstances bytes of default-usage storage
(sizeof(float4x4) = 64) and immediately calls PopulateInstanceBuffer.
Returns the byte capacity of the created buffer paired with the state
after the initial population. -/
def CreateInstanceBuffer (s : SampleState) : ℕ × SampleState :=
  (64 * MaxInstances, PopulateInstanceBuffer s)

/-- Modelled from the spec: the repopulate(instances) contract of the
Instance Buffer Manager (spec section 4.2) requires
len(instances) <= maxInstances. The bound check itself is not in the
provided sources: it lives in the external engine (UpdateBuffer validates
the write against the buffer size chosen in CreateInstanceBuffer) and the
capacity constant lives in the missing header. Succeeds with the new
buffer contents when the sequence fits the reserved storage; fails
otherwise. -/
def repopulate (instances : List float4x4) : Option (List float4x4) :=
  if instances.length ≤ MaxInstances then some instances else none

/-- Values the sample reads from the external engine during Update: the
surface pretransform for a given up direction and the adjusted projection
matrix for given field of view and near and far planes. -/
structure Engine where
  GetSurfacePretransformMatrix : ℝ → ℝ → ℝ → float4x4
  GetAdjustedProjectionMatrix : ℝ → ℝ → ℝ → float4x4

/-- The switch on m_CameraMode inside Update (lines 297-319) selecting the
view matrix; the default label shares the branch of case 0. -/
def viewFor (mode : ℤ) : float4x4 :=
  if mode = 1 then
    float4x4.Translation 0 0 40
  else if mode = 2 then
    float4x4.RotationX (-(PI_F / 2)) * float4x4.Translation 0 0 40
  else if mode = 3 then
    float4x4.RotationY (PI_F / 2) * float4x4.Translation 0 0 40
  else if mode = 4 then
    float4x4.RotationX (PI_F / 2) * float4x4.Translation 0 0 40
  else
    float4x4.RotationX (-0.3) * float4x4.Translation 0 0 40

/-- Models Tutorial04_Instancing.Update (lines 289-333). SampleBase.Update
touches none of the modelled state. UpdateUI (lines 115-132) is modelled as
leaving the state unchanged: the grid-size slider has bounds 32..32 so its
value can never change and the repopulation it would trigger never fires,
and the camera radio buttons merely store the user selection, which is
modelled as an out-of-band write to m_CameraMode before the tick. Update
then calls PopulateInstanceBuffer, selects the view matrix by camera mode,
queries the surface pretransform for up vector (0,0,1) and the projection
for field of view PI_F / 4 with near 0.1 and far 100, stores
View * SrfPreTransform * Proj in m_ViewProjMatrix, and stores
RotationY(CurrTime * 0) * RotationX(CurrTime * 0) in m_RotationMatrix. -/
def Update (e : Engine) (CurrTime ElapsedTime : ℝ) (s : SampleState) : SampleState :=
  let s1 := PopulateInstanceBuffer s
  let View := viewFor s1.m_CameraMode
  let SrfPreTransform := e.GetSurfacePretransformMatrix 0 0 1
  let Proj := e.GetAdjustedProjectionMatrix (PI_F / 4) 0.1 100
  { s1 with
      m_ViewProjMatrix := View * SrfPreTransform * Proj,
      m_RotationMatrix := float4x4.RotationY (CurrTime * 0) * float4x4.RotationX (CurrTime * 0) }

/-- Arguments of the one DrawIndexed submission of Render: an indexed draw
with Uint32 indices. -/
structure DrawIndexedAttribs where
  NumIndices : ℕ
  NumInstances : ℕ

/-- Models the draw submissions of Tutorial04_Instancing.Render
(lines 280-286): exactly one indexed instanced draw call with
NumIndices = 36 and NumInstances = m_GridSize cubed, the product being
stored in a Uint32 field. -/
def RenderDrawCalls (s : SampleState) : List DrawIndexedAttribs :=
  [{ NumIndices := 36,
     NumInstances := s.m_GridSize * s.m_GridSize * s.m_GridSize % 2 ^ 32 }]

/-- State of the sample right after Initialize (lines 135-149) has set up
the static angle (line 151, PI_F / 4) and before CreateInstanceBuffer runs
its initial population. The grid size 32 and camera mode 0 are Modelled
from the spec: both members are initialized in the missing header, the
slider bounds fix the grid size at 32 and Default is the first camera
choice. -/
def initialState : SampleState :=
  { angle := PI_F / 4
    m_GridSize := 32
    m_CameraMode := 0
    m_ViewProjMatrix := default4x4
    m_RotationMatrix := default4x4
    instanceBuffer := [] }

/-- Engine stub used to instantiate theorems at concrete inputs: every
query returns the identity matrix. -/
def engineOne : Engine :=
  { GetSurfacePretransformMatrix := fun _ _ _ => 1
    GetAdjustedProjectionMatrix := fun _ _ _ => 1 }

/-- The InstanceData vector always has exactly gridSize cubed entries: the
sequential assignments overwrite entries in place and never change the
length fixed at construction. -/
theorem instanceDataVec_length (g : ℕ) (θ : ℝ) :
    (instanceDataVec g θ).length = g * g * g := by
  simp [instanceDataVec, List.length_set, List.length_replicate]

/-- Writing one element at the index just past a prefix of a
prefix-plus-padding list moves that element onto the prefix. This is the
shape of each sequential InstanceData assignment. -/
theorem set_append_replicate {α : Type} (pre : List α) (d x : α) (k m n : ℕ)
    (hk : pre.length = k) (hn : n = m + 1) :
    (pre ++ List.replicate n d).set k x = (pre ++ [x]) ++ List.replicate m d := by
  subst hn
  rw [← hk, List.set_append_right pre.length x (le_refl _), Nat.sub_self,
    List.replicate_succ, List.set_cons_zero, List.append_assoc, List.singleton_append]

set_option maxHeartbeats 1000000 in
/-- At the fixed grid size 32, the InstanceData vector is the 20 hardcoded
transforms followed by 32748 value-initialized entries. -/
theorem instanceDataVec_32_eq (θ : ℝ) :
    instanceDataVec 32 θ
      = hardcodedTransforms θ ++ List.replicate 32748 default4x4 := by
  unfold instanceDataVec hardcodedTransforms
  generalize entry0 θ = x0
  generalize entry1 θ = x1
  generalize entry2 θ = x2
  generalize entry3 θ = x3
  generalize entry4 θ = x4
  generalize entry5 θ = x5
  generalize entry6 θ = x6
  generalize entry7 θ = x7
  generalize entry8 θ = x8
  generalize entry9 θ = x9
  generalize entry10 θ = x10
  generalize entry11 θ = x11
  generalize entry12 θ = x12
  generalize entry13 θ = x13
  generalize entry14 θ = x14
  generalize entry15 θ = x15
  generalize entry16 θ = x16
  generalize entry17 θ = x17
  generalize entry18 θ = x18
  generalize entry19 θ = x19
  generalize default4x4 = d
  rw [show (List.replicate (32 * 32 * 32) d : List float4x4)
        = [] ++ List.replicate 32768 d from by norm_num]
  rw [set_append_replicate ([] : List float4x4) d x0 0 32767 _ (by simp) (by norm_num)]
  rw [set_append_replicate ([] ++ [x0] : List float4x4) d x1 1 32766 _ (by simp) (by norm_num)]
  rw [set_append_replicate ([] ++ [x0] ++ [x1] : List float4x4) d x2 2 32765 _ (by simp) (by norm_num)]
  rw [set_append_replicate ([] ++ [x0] ++ [x1] ++ [x2] : List float4x4) d x3 3 32764 _ (by simp) (by norm_num)]
  rw [set_append_replicate ([] ++ [x0] ++ [x1] ++ [x2] ++ [x3] : List float4x4) d x4 4 32763 _ (by simp) (by norm_num)]
  rw [set_append_replicate ([] ++ [x0] ++ [x1] ++ [x2] ++ [x3] ++ [x4] : List float4x4) d x5 5 32762 _ (by simp) (by norm_num)]
  rw [set_append_replicate ([] ++ [x0] ++ [x1] ++ [x2] ++ [x3] ++ [x4] ++ [x5] : List float4x4) d x6 6 32761 _ (by simp) (by norm_num)]
  rw [set_append_replicate ([] ++ [x0] ++ [x1] ++ [x2] ++ [x3] ++ [x4] ++ [x5] ++ [x6] : List float4x4) d x7 7 32760 _ (by simp) (by norm_num)]
  rw [set_append_replicate ([] ++ [x0] ++ [x1] ++ [x2] ++ [x3] ++ [x4] ++ [x5] ++ [x6] ++ [x7] : List float4x4) d x8 8 32759 _ (by simp) (by norm_num)]
  rw [set_append_replicate ([] ++ [x0] ++ [x1] ++ [x2] ++ [x3] ++ [x4] ++ [x5] ++ [x6] ++ [x7] ++ [x8] : List float4x4) d x9 9 32758 _ (by simp) (by norm_num)]
  rw [set_append_replicate ([] ++ [x0] ++ [x1] ++ [x2] ++ [x3] ++ [x4] ++ [x5] ++ [x6] ++ [x7] ++ [x8] ++ [x9] : List float4x4) d x10 10 32757 _ (by simp) (by norm_num)]
  rw [set_append_replicate ([] ++ [x0] ++ [x1] ++ [x2] ++ [x3] ++ [x4] ++ [x5] ++ [x6] ++ [x7] ++ [x8] ++ [x9] ++ [x10] : List float4x4) d x11 11 32756 _ (by simp) (by norm_num)]
  rw [set_append_replicate ([] ++ [x0] ++ [x1] ++ [x2] ++ [x3] ++ [x4] ++ [x5] ++ [x6] ++ [x7] ++ [x8] ++ [x9] ++ [x10] ++ [x11] : List float4x4) d x12 12 32755 _ (by simp) (by norm_num)]
  rw [set_append_replicate ([] ++ [x0] ++ [x1] ++ [x2] ++ [x3] ++ [x4] ++ [x5] ++ [x6] ++ [x7] ++ [x8] ++ [x9] ++ [x10] ++ [x11] ++ [x12] : List float4x4) d x13 13 32754 _ (by simp) (by norm_num)]
  rw [set_append_replicate ([] ++ [x0] ++ [x1] ++ [x2] ++ [x3] ++ [x4] ++ [x5] ++ [x6] ++ [x7] ++ [x8] ++ [x9] ++ [x10] ++ [x11] ++ [x12] ++ [x13] : List float4x4) d x14 14 32753 _ (by simp) (by norm_num)]
  rw [set_append_replicate ([] ++ [x0] ++ [x1] ++ [x2] ++ [x3] ++ [x4] ++ [x5] ++ [x6] ++ [x7] ++ [x8] ++ [x9] ++ [x10] ++ [x11] ++ [x12] ++ [x13] ++ [x14] : List float4x4) d x15 15 32752 _ (by simp) (by norm_num)]
  rw [set_append_replicate ([] ++ [x0] ++ [x1] ++ [x2] ++ [x3] ++ [x4] ++ [x5] ++ [x6] ++ [x7] ++ [x8] ++ [x9] ++ [x10] ++ [x11] ++ [x12] ++ [x13] ++ [x14] ++ [x15] : List float4x4) d x16 16 32751 _ (by simp) (by norm_num)]
  rw [set_append_replicate ([] ++ [x0] ++ [x1] ++ [x2] ++ [x3] ++ [x4] ++ [x5] ++ [x6] ++ [x7] ++ [x8] ++ [x9] ++ [x10] ++ [x11] ++ [x12] ++ [x13] ++ [x14] ++ [x15] ++ [x16] : List float4x4) d x17 17 32750 _ (by simp) (by norm_num)]
  rw [set_append_replicate ([] ++ [x0] ++ [x1] ++ [x2] ++ [x3] ++ [x4] ++ [x5] ++ [x6] ++ [x7] ++ [x8] ++ [x9] ++ [x10] ++ [x11] ++ [x12] ++ [x13] ++ [x14] ++ [x15] ++ [x16] ++ [x17] : List float4x4) d x18 18 32749 _ (by simp) (by norm_num)]
  rw [set_append_replicate ([] ++ [x0] ++ [x1] ++ [x2] ++ [x3] ++ [x4] ++ [x5] ++ [x6] ++ [x7] ++ [x8] ++ [x9] ++ [x10] ++ [x11] ++ [x12] ++ [x13] ++ [x14] ++ [x15] ++ [x16] ++ [x17] ++ [x18] : List float4x4) d x19 19 32748 _ (by simp) (by norm_num)]
  simp only [List.append_assoc, List.nil_append, List.singleton_append, List.cons_append]

/-- The hardcoded transform list has exactly 20 entries. -/
theorem hardcodedTransforms_length (θ : ℝ) :
    (hardcodedTransforms θ).length = 20 := by
  simp [hardcodedTransforms]

/-- The state after PopulateInstanceBuffer: angle advanced by 0.01 and the
buffer rebuilt at the advanced angle; all other members untouched. -/
theorem PopulateInstanceBuffer_eq (s : SampleState) :
    PopulateInstanceBuffer s
      = { s with
            angle := s.angle + 0.01,
            instanceBuffer := instanceDataVec s.m_GridSize (s.angle + 0.01) } :=
  rfl

/-- RotationX at angle zero is the identity matrix. -/
theorem RotationX_zero : float4x4.RotationX 0 = 1 := by
  ext i j
  fin_cases i <;> fin_cases j <;>
    simp [float4x4.RotationX, Matrix.one_apply, Matrix.vecHead, Matrix.vecTail]

/-- RotationY at angle zero is the identity matrix. -/
theorem RotationY_zero : float4x4.RotationY 0 = 1 := by
  ext i j
  fin_cases i <;> fin_cases j <;>
    simp [float4x4.RotationY, Matrix.one_apply, Matrix.vecHead, Matrix.vecTail]

/-- Claim C1: for every call to PopulateInstanceBuffer at the fixed grid
size 32, the number of transforms uploaded to the GPU instance buffer is
at most MaxInstances, the capacity CreateInstanceBuffer reserved, for
every value of the global angle (carried inside the state). -/
theorem C1_instance_count_le_capacity (s : SampleState) (h : s.m_GridSize = 32) :
    ((PopulateInstanceBuffer s).instanceBuffer).length ≤ MaxInstances := by
  rw [PopulateInstanceBuffer_eq]
  simp only [h, instanceDataVec_length, MaxInstances]
  omega

/-- Witness for C1: the population call performed on the initial state. -/
theorem C1_witness :
    ((PopulateInstanceBuffer initialState).instanceBuffer).length ≤ MaxInstances :=
  C1_instance_count_le_capacity initialState rfl

/-- Claim C2: after one tick at the fixed grid size 32, Render issues
exactly one indexed instanced draw call, with index count 36 and instance
count equal to the length of the instance array produced by the
PopulateInstanceBuffer call of that tick. -/
theorem C2_render_one_draw (e : Engine) (CurrTime ElapsedTime : ℝ)
    (s : SampleState) (h : s.m_GridSize = 32) :
    RenderDrawCalls (Update e CurrTime ElapsedTime s)
      = [{ NumIndices := 36,
           NumInstances := ((Update e CurrTime ElapsedTime s).instanceBuffer).length }] := by
  have hbuf : (Update e CurrTime ElapsedTime s).instanceBuffer
      = instanceDataVec 32 (s.angle + 0.01) := by
    simp [Update, PopulateInstanceBuffer, h]
  have hlen : ((Update e CurrTime ElapsedTime s).instanceBuffer).length = 32768 := by
    rw [hbuf, instanceDataVec_length]
  have hg : (Update e CurrTime ElapsedTime s).m_GridSize = 32 := by
    simp [Update, PopulateInstanceBuffer, h]
  rw [RenderDrawCalls, hg, hlen]
  norm_num

/-- Witness for C2: one tick on the initial state with the stub engine. -/
theorem C2_witness :
    RenderDrawCalls (Update engineOne 0 0 initialState)
      = [{ NumIndices := 36,
           NumInstances := ((Update engineOne 0 0 initialState).instanceBuffer).length }] :=
  C2_render_one_draw engineOne 0 0 initialState rfl

/-- Claim C3 counterexample: PopulateInstanceBuffer does not leave the
global angle unchanged, refuting the claim that the instance-array
construction has no side effect on program state; one call from the
initial state moves the angle from PI_F / 4 to PI_F / 4 + 0.01. -/
theorem C3_counterexample :
    (PopulateInstanceBuffer initialState).angle ≠ initialState.angle := by
  rw [PopulateInstanceBuffer_eq]
  show initialState.angle + 0.01 ≠ initialState.angle
  intro hc
  have h01 : (0.01 : ℝ) = 0 := by linarith
  norm_num at h01

/-- Claim C3 amended: the instance array built by PopulateInstanceBuffer
is a deterministic function of the global angle and grid size at entry,
and the call leaves every member other than the instance buffer and the
global angle unchanged; but it is not side-effect free: it increments the
global angle by exactly 0.01 before generating the transforms. -/
theorem C3_amended (s t : SampleState)
    (hangle : s.angle = t.angle) (hgrid : s.m_GridSize = t.m_GridSize) :
    (PopulateInstanceBuffer s).instanceBuffer = (PopulateInstanceBuffer t).instanceBuffer
      ∧ (PopulateInstanceBuffer s).angle = s.angle + 0.01
      ∧ (PopulateInstanceBuffer s).m_GridSize = s.m_GridSize
      ∧ (PopulateInstanceBuffer s).m_CameraMode = s.m_CameraMode
      ∧ (PopulateInstanceBuffer s).m_ViewProjMatrix = s.m_ViewProjMatrix
      ∧ (PopulateInstanceBuffer s).m_RotationMatrix = s.m_RotationMatrix := by
  rw [PopulateInstanceBuffer_eq, PopulateInstanceBuffer_eq]
  simp [hangle, hgrid]

/-- Witness for the amended C3 at the initial state. -/
theorem C3_amended_witness :
    (PopulateInstanceBuffer initialState).instanceBuffer
        = (PopulateInstanceBuffer initialState).instanceBuffer
      ∧ (PopulateInstanceBuffer initialState).angle = initialState.angle + 0.01
      ∧ (PopulateInstanceBuffer initialState).m_GridSize = initialState.m_GridSize
      ∧ (PopulateInstanceBuffer initialState).m_CameraMode = initialState.m_CameraMode
      ∧ (PopulateInstanceBuffer initialState).m_ViewProjMatrix
          = initialState.m_ViewProjMatrix
      ∧ (PopulateInstanceBuffer initialState).m_RotationMatrix
          = initialState.m_RotationMatrix :=
  C3_amended initialState initialState rfl rfl

/-- Claim C4: every tick advances the global angle by exactly the fixed
step 0.01, independent of both time arguments: two Update calls from the
same state with different times produce the same new angle. -/
theorem C4_fixed_angle_step (e : Engine) (s : SampleState)
    (t1 dt1 t2 dt2 : ℝ) :
    (Update e t1 dt1 s).angle = s.angle + 0.01
      ∧ (Update e t1 dt1 s).angle = (Update e t2 dt2 s).angle := by
  simp [Update, PopulateInstanceBuffer]

/-- Claim C5: from a state whose global angle is PI_F / 4 (the initializer
of the static angle) at the fixed grid size, one tick leaves the angle at
PI_F / 4 + 0.01 and the first entry of the generated instance array is
Scale(0.7, 0.7, 0.7) * Translation(0, 4, 0) * RotationY(PI_F / 4 + 0.01);
the PopulateInstanceBuffer call that CreateInstanceBuffer makes during
initialization produces the same first entry. -/
theorem C5_initial_tick (e : Engine) (CurrTime ElapsedTime : ℝ) (s : SampleState)
    (hangle : s.angle = PI_F / 4) (hgrid : s.m_GridSize = 32) :
    (Update e CurrTime ElapsedTime s).angle = PI_F / 4 + 0.01
      ∧ ((Update e CurrTime ElapsedTime s).instanceBuffer)[0]?
          = some (float4x4.Scale 0.7 0.7 0.7 * float4x4.Translation 0 4 0
              * float4x4.RotationY (PI_F / 4 + 0.01))
      ∧ ((PopulateInstanceBuffer s).instanceBuffer)[0]?
          = some (float4x4.Scale 0.7 0.7 0.7 * float4x4.Translation 0 4 0
              * float4x4.RotationY (PI_F / 4 + 0.01)) := by
  have hget : (instanceDataVec 32 (PI_F / 4 + 0.01))[0]?
      = some (entry0 (PI_F / 4 + 0.01)) := by
    rw [instanceDataVec_32_eq,
      List.getElem?_append_left (by rw [hardcodedTransforms_length]; omega)]
    simp [hardcodedTransforms]
  have hb : (Update e CurrTime ElapsedTime s).instanceBuffer
      = instanceDataVec 32 (PI_F / 4 + 0.01) := by
    simp [Update, PopulateInstanceBuffer, hangle, hgrid]
  have hb2 : (PopulateInstanceBuffer s).instanceBuffer
      = instanceDataVec 32 (PI_F / 4 + 0.01) := by
    rw [PopulateInstanceBuffer_eq, hangle, hgrid]
  refine ⟨by simp [Update, PopulateInstanceBuffer, hangle], ?_, ?_⟩
  · rw [hb, hget]; rfl
  · rw [hb2, hget]; rfl

/-- Witness for C5: one tick on the initial state with the stub engine. -/
theorem C5_witness :
    (Update engineOne 0 0 initialState).angle = PI_F / 4 + 0.01
      ∧ ((Update engineOne 0 0 initialState).instanceBuffer)[0]?
          = some (float4x4.Scale 0.7 0.7 0.7 * float4x4.Translation 0 4 0
              * float4x4.RotationY (PI_F / 4 + 0.01))
      ∧ ((PopulateInstanceBuffer initialState).instanceBuffer)[0]?
          = some (float4x4.Scale 0.7 0.7 0.7 * float4x4.Translation 0 4 0
              * float4x4.RotationY (PI_F / 4 + 0.01)) :=
  C5_initial_tick engineOne 0 0 initialState rfl rfl

/-- Claim C6: Update computes the view matrix from the camera mode by the
fixed five-entry table; each entry is a fixed rotation times the fixed
camera-distance translation Translation(0, 0, 40): mode 0 (Default) uses
RotationX(-0.3), mode 1 (Front) the identity rotation RotationX(0), mode 2
(Top) RotationX(-PI_F / 2), mode 3 (Side) RotationY(PI_F / 2) and mode 4
(Bottom) RotationX(PI_F / 2). -/
theorem C6_camera_view_table (e : Engine) (CurrTime ElapsedTime : ℝ) (s : SampleState) :
    (Update e CurrTime ElapsedTime s).m_ViewProjMatrix
        = viewFor s.m_CameraMode * e.GetSurfacePretransformMatrix 0 0 1
            * e.GetAdjustedProjectionMatrix (PI_F / 4) 0.1 100
      ∧ viewFor 0 = float4x4.RotationX (-0.3) * float4x4.Translation 0 0 40
      ∧ viewFor 1 = float4x4.RotationX 0 * float4x4.Translation 0 0 40
      ∧ viewFor 2 = float4x4.RotationX (-(PI_F / 2)) * float4x4.Translation 0 0 40
      ∧ viewFor 3 = float4x4.RotationY (PI_F / 2) * float4x4.Translation 0 0 40
      ∧ viewFor 4 = float4x4.RotationX (PI_F / 2) * float4x4.Translation 0 0 40 := by
  refine ⟨by simp [Update, PopulateInstanceBuffer], ?_, ?_, ?_, ?_, ?_⟩
  · simp [viewFor]
  · rw [RotationX_zero, one_mul]; simp [viewFor]
  · simp [viewFor]
  · simp [viewFor]
  · simp [viewFor]

/-- Claim C7: two one-tick runs from states differing only in the camera
mode generate identical instance data, identical angle and identical
rotation matrix, and both use the projection obtained from the same
camera-mode-independent query; the two view-projection matrices are each
their own camera-mode view matrix times the shared pretransform-projection
factor, so the difference between the runs is confined to the view
factor. -/
theorem C7_camera_mode_invariance (e : Engine) (CurrTime ElapsedTime : ℝ)
    (s : SampleState) (m : ℤ) :
    (Update e CurrTime ElapsedTime { s with m_CameraMode := m }).instanceBuffer
        = (Update e CurrTime ElapsedTime s).instanceBuffer
      ∧ (Update e CurrTime ElapsedTime { s with m_CameraMode := m }).angle
        = (Update e CurrTime ElapsedTime s).angle
      ∧ (Update e CurrTime ElapsedTime { s with m_CameraMode := m }).m_RotationMatrix
        = (Update e CurrTime ElapsedTime s).m_RotationMatrix
      ∧ (Update e CurrTime ElapsedTime { s with m_CameraMode := m }).m_ViewProjMatrix
        = viewFor m * (e.GetSurfacePretransformMatrix 0 0 1
            * e.GetAdjustedProjectionMatrix (PI_F / 4) 0.1 100)
      ∧ (Update e CurrTime ElapsedTime s).m_ViewProjMatrix
        = viewFor s.m_CameraMode * (e.GetSurfacePretransformMatrix 0 0 1
            * e.GetAdjustedProjectionMatrix (PI_F / 4) 0.1 100) := by
  simp [Update, PopulateInstanceBuffer, mul_assoc]

/-- Claim C8: after every Update call the rotation matrix is the identity,
for every current time, because the time scaling factor is zero. -/
theorem C8_rotation_matrix_identity (e : Engine) (CurrTime ElapsedTime : ℝ)
    (s : SampleState) :
    (Update e CurrTime ElapsedTime s).m_RotationMatrix = 1 := by
  simp [Update, PopulateInstanceBuffer, mul_zero, RotationY_zero, RotationX_zero]

/-- Claim C9: repopulation respects the capacity bound: the
PopulateInstanceBuffer call at the fixed grid size uploads exactly
MaxInstances transforms and the modelled repopulate contract accepts that
sequence, while any sequence of MaxInstances + 1 transforms is rejected. -/
theorem C9_repopulate_bound (s : SampleState) (t : float4x4) (h : s.m_GridSize = 32) :
    ((PopulateInstanceBuffer s).instanceBuffer).length = MaxInstances
      ∧ repopulate ((PopulateInstanceBuffer s).instanceBuffer)
          = some ((PopulateInstanceBuffer s).instanceBuffer)
      ∧ repopulate (List.replicate (MaxInstances + 1) t) = none := by
  have hlen : ((PopulateInstanceBuffer s).instanceBuffer).length = MaxInstances := by
    rw [PopulateInstanceBuffer_eq]
    simp only [h, instanceDataVec_length, MaxInstances]
  refine ⟨hlen, ?_, ?_⟩
  · rw [repopulate, if_pos (le_of_eq hlen)]
  · rw [repopulate, List.length_replicate, if_neg (by omega)]

/-- Witness for C9: the population call on the initial state and the
over-full sequence of value-initialized transforms. -/
theorem C9_witness :
    ((PopulateInstanceBuffer initialState).instanceBuffer).length = MaxInstances
      ∧ repopulate ((PopulateInstanceBuffer initialState).instanceBuffer)
          = some ((PopulateInstanceBuffer initialState).instanceBuffer)
      ∧ repopulate (List.replicate (MaxInstances + 1) default4x4) = none :=
  C9_repopulate_bound initialState default4x4 rfl

/-- Claim C10: at the fixed grid size 32 (the slider bounds 32..32 keep
m_GridSize at 32), PopulateInstanceBuffer builds an instance array of
32 cubed = 32768 value-initialized entries of which exactly the first 20
are overwritten with the hardcoded transforms, in write order; the
remaining 32748 entries keep the default value, and Render draws all
32768 instances. -/
theorem C10_grid_contents (s : SampleState) (h : s.m_GridSize = 32) :
    ((PopulateInstanceBuffer s).instanceBuffer).length = 32768
      ∧ (PopulateInstanceBuffer s).instanceBuffer
          = hardcodedTransforms (s.angle + 0.01) ++ List.replicate 32748 default4x4
      ∧ (hardcodedTransforms (s.angle + 0.01)).length = 20
      ∧ RenderDrawCalls s = [{ NumIndices := 36, NumInstances := 32768 }] := by
  have hb : (PopulateInstanceBuffer s).instanceBuffer
      = instanceDataVec 32 (s.angle + 0.01) := by
    rw [PopulateInstanceBuffer_eq, h]
  refine ⟨?_, ?_, hardcodedTransforms_length _, ?_⟩
  · rw [hb, instanceDataVec_length]
  · rw [hb, instanceDataVec_32_eq]
  · simp [RenderDrawCalls, h]

/-- Witness for C10: the initial state. -/
theorem C10_witness :
    ((PopulateInstanceBuffer initialState).instanceBuffer).length = 32768
      ∧ (PopulateInstanceBuffer initialState).instanceBuffer
          = hardcodedTransforms (initialState.angle + 0.01)
              ++ List.replicate 32748 default4x4
      ∧ (hardcodedTransforms (initialState.angle + 0.01)).length = 20
      ∧ RenderDrawCalls initialState = [{ NumIndices := 36, NumInstances := 32768 }] :=
  C10_grid_contents initialState rfl

end Tutorial04
